import Mathlib

/-!
Shallow embedding of the JustAdios meeting-termination core (Rust) in Lean 4.

Timestamps (`chrono::DateTime<Utc>`) and durations (`chrono::Duration`) are
modelled as `Int` counts of nanoseconds, matching chrono's internal
nanosecond precision.  Every Rust integer division is truncation toward
zero, embedded as `Int.tdiv`.  Fallible Rust code (`cja::Result`,
`Result<_, Response>`) is embedded as `Except`; a Rust `unwrap`/panic is
embedded through the `Outcome` type below.  External effects (the provider
HTTP client, serde_json parsing, HMAC) are parameters of the functions that
use them; the database tables are explicit `List` values.
-/

namespace JustAdios

/-- chrono `Duration` / `DateTime` values are nanosecond counts. -/
abbrev Nanos := Int

namespace ChronoDuration

/-- `chrono::Duration::num_seconds`: whole seconds, truncated toward zero. -/
def num_seconds (d : Nanos) : Int := Int.tdiv d 1000000000

/-- `chrono::Duration::num_minutes`: whole minutes, truncated toward zero
(`num_seconds() / 60` with Rust `i64` division). -/
def num_minutes (d : Nanos) : Int := Int.tdiv (num_seconds d) 60

/-- `chrono::Duration::minutes m`. -/
def minutes (m : Int) : Nanos := m * 60 * 1000000000

/-- `chrono::Duration::seconds s`. -/
def seconds (s : Int) : Nanos := s * 1000000000

end ChronoDuration

/-- Rust `as i32` on an `i64` value: two's-complement wrap into
`[-2^31, 2^31)`. -/
def i64_as_i32 (x : Int) : Int :=
  (x + 2147483648) % 4294967296 - 2147483648

/-- `src/jobs/end_meeting.rs`: `DEFAULT_MAX_MEETING_LENGTH_MINUTES`. -/
def DEFAULT_MAX_MEETING_LENGTH_MINUTES : Int := 40

/-- `src/db.rs`: struct `DBUser` (row of the `users` table).  `Uuid` keys
are modelled as `Nat`. -/
structure DBUser where
  user_id : Nat
  zoom_id : String
  display_name : String
  access_token : String
  refresh_token : String
  expires_at : Nanos
  default_meeting_length_minutes : Option Int
  created_at : Nanos
  updated_at : Nanos
  deriving DecidableEq

/-- `src/db.rs`: struct `DBMeeting` (row of the `meetings` table). -/
structure DBMeeting where
  meeting_id : Nat
  user_id : Nat
  zoom_id : String
  zoom_uuid : String
  start_time : Nanos
  end_time : Option Nanos
  max_meeting_length_minutes : Option Int
  created_at : Nanos
  updated_at : Nanos
  deriving DecidableEq

/-- `src/db.rs`: `DBMeeting::is_ended`. -/
def DBMeeting.is_ended (m : DBMeeting) : Bool := m.end_time.isSome

/-- `src/db.rs`: `DBMeeting::duration`.  The Rust body reads `Utc::now()`
when `end_time` is null; `now` is that clock reading. -/
def DBMeeting.duration (m : DBMeeting) (now : Nanos) : Nanos :=
  m.end_time.getD now - m.start_time

/-- `src/db.rs`: `DBMeeting::max_duration` — meeting override, else user
default, else the 40-minute system default. -/
def DBMeeting.max_duration (m : DBMeeting) (user : DBUser) : Nanos :=
  match m.max_meeting_length_minutes with
  | some max_meeting_length_minutes => ChronoDuration.minutes max_meeting_length_minutes
  | none =>
    match user.default_meeting_length_minutes with
    | some user_max_length => ChronoDuration.minutes user_max_length
    | none => ChronoDuration.minutes DEFAULT_MAX_MEETING_LENGTH_MINUTES

/-- `src/db.rs`: `DBMeeting::minutes_remaining`:
`(max_duration - duration).num_minutes() as i32`. -/
def DBMeeting.minutes_remaining (m : DBMeeting) (user : DBUser) (now : Nanos) : Int :=
  i64_as_i32 (ChronoDuration.num_minutes (m.max_duration user - m.duration now))

/-- Spec wording (§4.1): `floor_minutes(max_duration − duration)` — the floor,
in whole minutes, of a nanosecond duration.  Used only to compare the spec's
words with the code's `num_minutes` truncation. -/
def spec_floor_minutes (d : Nanos) : Int := Int.fdiv d 60000000000

/-- `src/db.rs`: `DBUser::is_access_token_expired`:
`expires_at < Utc::now() + 60s`. -/
def DBUser.is_access_token_expired (u : DBUser) (now : Nanos) : Bool :=
  u.expires_at < now + ChronoDuration.seconds 60

/-- `src/routes.rs`: struct `ZoomTokenResponse` (body of the provider's
OAuth token endpoint response). -/
structure ZoomTokenResponse where
  access_token : String
  api_url : String
  expires_in : Int
  refresh_token : String
  scope : String
  token_type : String
  deriving DecidableEq

/-- `src/db.rs`: `DBUser::access_token` (named `access_token_op` here because
the field projection takes the Rust method's name).  `refresh_result` is the
outcome of `zoom::refresh_access_token` (an external HTTP call).  Returns the
token handed to the caller together with the updated `users` row when the
`UPDATE users SET access_token = $1, expires_at = $2` statement ran (`none`
when the cached token was returned without any store write). -/
def DBUser.access_token_op (u : DBUser) (now : Nanos)
    (refresh_result : Except String ZoomTokenResponse) :
    Except String (String × Option DBUser) :=
  if u.is_access_token_expired now = false then
    .ok (u.access_token, none)
  else
    match refresh_result with
    | .error e => .error e
    | .ok token_response =>
      let expires_at := now + ChronoDuration.seconds token_response.expires_in
      .ok (token_response.access_token,
        some { u with access_token := token_response.access_token,
                      expires_at := expires_at })

/-- `src/zoom.rs`: struct `ListedMeeting` (one element of the provider's
live-meeting list). -/
structure ListedMeeting where
  agenda : Option String
  created_at : String
  duration : Option Int
  host_id : String
  id : Int
  start_time : Option String
  timezone : Option String
  type : Int
  uuid : String
  deriving DecidableEq

/-- `src/zoom.rs`: `ListedMeeting::live_duration`.  `parse_created_at` is
chrono's `NaiveDateTime::parse_from_str` (the external parser), `now` the
`Utc::now()` reading. -/
def ListedMeeting.live_duration (parse_created_at : String → Except String Nanos)
    (m : ListedMeeting) (now : Nanos) : Except String Int :=
  if m.type = 4 then
    .error "Could not determine the live duration of a Personal Meeting Room Meeting because the API created_at is the first time the meeting was ever used and no start time is presented"
  else if m.type ≠ 1 then
    .error ("Meeting type " ++ toString m.type ++ " is not supported")
  else
    match parse_created_at m.created_at with
    | .error e => .error e
    | .ok created_at => .ok (ChronoDuration.num_seconds (now - created_at))

/-- `src/routes/webhooks.rs`: struct `MeetingDetails` (the `object` of a
`meeting.started` / `meeting.ended` payload). -/
structure MeetingDetails where
  duration : Int
  host_id : String
  id : String
  start_time : Nanos
  end_time : Option Nanos
  topic : String
  type : Int
  uuid : String
  deriving DecidableEq

/-- `src/routes/webhooks.rs`: struct `MeetingStartedPayload`. -/
structure MeetingStartedPayload where
  account_id : String
  object : MeetingDetails
  deriving DecidableEq

/-- `src/routes/webhooks.rs`: struct `MeetingEndedPayload`. -/
structure MeetingEndedPayload where
  account_id : String
  object : MeetingDetails
  deriving DecidableEq

/-- `src/routes/webhooks.rs`: struct `ParticipantJoined`. -/
structure ParticipantJoined where
  email : String
  id : String
  join_time : String
  participant_user_id : String
  participant_uuid : String
  user_id : String
  user_name : String
  deriving DecidableEq

/-- `src/routes/webhooks.rs`: struct `ParticipantJoinedPayloadInner`. -/
structure ParticipantJoinedPayloadInner where
  id : String
  participant : ParticipantJoined
  start_time : String
  timezone : String
  topic : String
  type : Int
  uuid : String
  deriving DecidableEq

/-- `src/routes/webhooks.rs`: struct `ParticipantJoinedPayload`. -/
structure ParticipantJoinedPayload where
  account_id : String
  object : ParticipantJoinedPayloadInner
  deriving DecidableEq

/-- `src/routes/webhooks.rs`: struct `ParticipantLeft`. -/
structure ParticipantLeft where
  email : String
  id : String
  leave_reason : String
  leave_time : String
  participant_user_id : String
  participant_uuid : String
  registrant_id : String
  user_id : String
  user_name : String
  deriving DecidableEq

/-- `src/routes/webhooks.rs`: struct `ParticipantLeftPayloadInner`. -/
structure ParticipantLeftPayloadInner where
  id : String
  participant : ParticipantLeft
  start_time : String
  timezone : String
  topic : String
  type : Int
  uuid : String
  deriving DecidableEq

/-- `src/routes/webhooks.rs`: struct `ParticipantLeftPayload`. -/
structure ParticipantLeftPayload where
  account_id : String
  object : ParticipantLeftPayloadInner
  deriving DecidableEq

/-- `src/routes/webhooks.rs`: struct `ZoomWebhookBody` — the tagged envelope.
`J` stands for `serde_json::Value`, kept abstract. -/
structure ZoomWebhookBody (J : Type) where
  event : String
  payload : J

/-- The four `serde_json::from_value` payload decoders used by
`TryFrom<ZoomWebhookBody>`; external serde behaviour, kept as parameters
(`none` = decode failure). -/
structure SerdeDecoders (J : Type) where
  decode_meeting_started : J → Option MeetingStartedPayload
  decode_meeting_ended : J → Option MeetingEndedPayload
  decode_participant_joined : J → Option ParticipantJoinedPayload
  decode_participant_left : J → Option ParticipantLeftPayload

/-- `src/routes/webhooks.rs`: enum `ZoomWebhookEvent`. -/
inductive ZoomWebhookEvent where
  | MeetingStarted (p : MeetingStartedPayload)
  | MeetingEnded (p : MeetingEndedPayload)
  | ParticipantJoined (p : ParticipantJoinedPayload)
  | ParticipantLeft (p : ParticipantLeftPayload)
  deriving DecidableEq

/-- `src/routes/webhooks.rs`: `impl TryFrom<ZoomWebhookBody> for
ZoomWebhookEvent` — dispatch on the event name; an unknown name is the hard
error `"Unknown event type"`, a failing payload decode propagates serde's
error. -/
def ZoomWebhookEvent.try_from {J : Type} (d : SerdeDecoders J)
    (body : ZoomWebhookBody J) : Except String ZoomWebhookEvent :=
  match body.event with
  | "meeting.started" =>
    match d.decode_meeting_started body.payload with
    | some p => .ok (.MeetingStarted p)
    | none => .error "serde decode error"
  | "meeting.ended" =>
    match d.decode_meeting_ended body.payload with
    | some p => .ok (.MeetingEnded p)
    | none => .error "serde decode error"
  | "meeting.participant_joined" =>
    match d.decode_participant_joined body.payload with
    | some p => .ok (.ParticipantJoined p)
    | none => .error "serde decode error"
  | "meeting.participant_left" =>
    match d.decode_participant_left body.payload with
    | some p => .ok (.ParticipantLeft p)
    | none => .error "serde decode error"
  | _ => .error "Unknown event type"

/-- Result of running Rust code that may `unwrap`: either a value, or the
message of the abort that an `unwrap` on a missing value raises. -/
inductive Outcome (α : Type) where
  | panicked (msg : String)
  | value (v : α)
  deriving DecidableEq

/-- An axum `Response` used on the error path: HTTP status plus text body. -/
structure Resp where
  status : Nat
  body : String
  deriving DecidableEq

/-- The two Zoom headers read by the handler (`HeaderMap` restricted to
them); `none` = header absent. -/
structure HeaderMap where
  x_zm_request_timestamp : Option String
  x_zm_signature : Option String
  deriving DecidableEq

/-- `src/routes/webhooks.rs`: `verify_zoom_signature`.  `hmac_sha256_hex`
computes the hex HMAC-SHA256 of a message under a key (external crypto, a
parameter).  Both header reads are `unwrap`s: a missing header panics. -/
def verify_zoom_signature (hmac_sha256_hex : String → String → String)
    (secret_token : String) (headers : HeaderMap) (body : String) :
    Outcome (Except Resp Unit) :=
  match headers.x_zm_request_timestamp with
  | none => .panicked "called Option.unwrap on a None value"
  | some zoom_timestamp =>
    let message := "v0:" ++ zoom_timestamp ++ ":" ++ body
    let code := hmac_sha256_hex secret_token message
    let signature := "v0=" ++ code
    match headers.x_zm_signature with
    | none => .panicked "called Option.unwrap on a None value"
    | some zoom_signature =>
      if zoom_signature = signature then .value (.ok ())
      else .value (.error { status := 400, body := "Invalid zoom webhook signature" })

/-- `src/routes/webhooks.rs`: handler `zoom_webhook`, modelled up to event
dispatch (the per-event `process` calls are modelled separately on the
store).  `parse_envelope` is `serde_json::from_str::<ZoomWebhookBody>`; the
Rust code calls `.unwrap()` on it, so a failed envelope decode panics. -/
def zoom_webhook {J : Type} (d : SerdeDecoders J)
    (hmac_sha256_hex : String → String → String)
    (parse_envelope : String → Option (ZoomWebhookBody J))
    (secret_token : String) (headers : HeaderMap) (body : String) :
    Outcome (Except Resp ZoomWebhookEvent) :=
  match verify_zoom_signature hmac_sha256_hex secret_token headers body with
  | .panicked m => .panicked m
  | .value (.error r) => .value (.error r)
  | .value (.ok ()) =>
    match parse_envelope body with
    | none => .panicked "called Result.unwrap on an Err value"
    | some b =>
      match ZoomWebhookEvent.try_from d b with
      | .error e =>
        .value (.error { status := 400, body := "Invalid zoom webhook body: " ++ e })
      | .ok ev => .value (.ok ev)

/-- `src/routes/webhooks.rs`: `MeetingEndedPayload::process` — the statement
`UPDATE meetings SET end_time = $1 WHERE zoom_uuid = $2 RETURNING *` followed
by `fetch_one`: every row whose `zoom_uuid` matches gets `end_time` set to
the payload's (nullable) `end_time`; zero matched rows make `fetch_one`
fail, which the handler maps to a 400 response. -/
def MeetingEndedPayload.process (p : MeetingEndedPayload)
    (meetings : List DBMeeting) : Except Resp (List DBMeeting) :=
  if meetings.any (fun m => m.zoom_uuid == p.object.uuid) then
    .ok (meetings.map (fun m =>
      if m.zoom_uuid == p.object.uuid then { m with end_time := p.object.end_time } else m))
  else
    .error { status := 400, body := "DB Error: no rows returned" }

/-- `src/jobs/check_live_meetings.rs`: the loop body of
`CheckLiveUserMeetings::run` — `INSERT INTO meetings (user_id, zoom_id,
zoom_uuid, start_time) VALUES ... ON CONFLICT (zoom_id) DO NOTHING`.
The conflict target is the `zoom_id` column.  `now` is the `Utc::now()`
reading used for `start_time` (and the row-creation timestamps);
`new_meeting_id` is the key the database generates for a fresh row. -/
def insert_discovered_meeting (meetings : List DBMeeting) (user_id : Nat)
    (lm : ListedMeeting) (now : Nanos) (new_meeting_id : Nat) : List DBMeeting :=
  if meetings.any (fun m => m.zoom_id == toString lm.id) then meetings
  else meetings ++
    [{ meeting_id := new_meeting_id, user_id := user_id,
       zoom_id := toString lm.id, zoom_uuid := lm.uuid,
       start_time := now, end_time := none,
       max_meeting_length_minutes := none,
       created_at := now, updated_at := now }]

/-- `src/jobs/end_meeting.rs`: `EndMeeting::run`.  Returns the job outcome,
whether the provider terminate call (`zoom::adios`) was issued, and the
`meetings` table after the job (the body issues no meeting write, only the
token refresh may update `users`).  `refresh_result` is the external
refresh-grant outcome feeding `DBUser::access_token`; `adios_result` the
outcome of the terminate HTTP call. -/
def EndMeeting.run (meetings : List DBMeeting) (users : List DBUser)
    (meeting_id : Nat) (now : Nanos)
    (refresh_result : Except String ZoomTokenResponse)
    (adios_result : Except String Unit) :
    Except String Unit × Bool × List DBMeeting :=
  match meetings.find? (fun m => m.meeting_id == meeting_id) with
  | none => (.error "RowNotFound", false, meetings)
  | some meeting =>
    match users.find? (fun u => u.user_id == meeting.user_id) with
    | none => (.error "RowNotFound", false, meetings)
    | some owner =>
      if meeting.is_ended then (.ok (), false, meetings)
      else if meeting.duration now > meeting.max_duration owner then
        match owner.access_token_op now refresh_result with
        | .error e => (.error e, false, meetings)
        | .ok _ => (adios_result, true, meetings)
      else (.ok (), false, meetings)

/-! Concrete rows and payloads used by the individual claim theorems. -/

/-- A meeting row already closed at the 100-minute mark. -/
def c1_meeting : DBMeeting :=
  { meeting_id := 1, user_id := 1, zoom_id := "81234", zoom_uuid := "inst-uuid",
    start_time := 0, end_time := some (ChronoDuration.minutes 100),
    max_meeting_length_minutes := none, created_at := 0, updated_at := 0 }

/-- A `meeting.ended` payload for the same instance id whose `end_time`
field is null. -/
def c1_payload : MeetingEndedPayload :=
  { account_id := "acct",
    object := { duration := 0, host_id := "host", id := "81234", start_time := 0,
                end_time := none, topic := "standup", type := 2, uuid := "inst-uuid" } }

/-- Listed provider meeting: meeting id 1, instance id `shared-uuid`. -/
def c2_listed_a : ListedMeeting :=
  { agenda := none, created_at := "2024-01-01T00:00:00Z", duration := none,
    host_id := "host", id := 1, start_time := none, timezone := none,
    type := 1, uuid := "shared-uuid" }

/-- Listed provider meeting: meeting id 2, same instance id `shared-uuid`. -/
def c2_listed_b : ListedMeeting :=
  { agenda := none, created_at := "2024-01-01T00:00:00Z", duration := none,
    host_id := "host", id := 2, start_time := none, timezone := none,
    type := 1, uuid := "shared-uuid" }

/-- The `meetings` table after discovering `c2_listed_a` and then
`c2_listed_b`, starting from an empty table. -/
def c2_after_two_inserts : List DBMeeting :=
  insert_discovered_meeting
    (insert_discovered_meeting [] 7 c2_listed_a 0 100) 7 c2_listed_b 0 101

/-- A user whose token expired at epoch. -/
def c3_user : DBUser :=
  { user_id := 3, zoom_id := "z3", display_name := "Casey",
    access_token := "old-access", refresh_token := "old-refresh",
    expires_at := 0, default_meeting_length_minutes := none,
    created_at := 0, updated_at := 0 }

/-- A refresh-grant response that rotates the refresh token. -/
def c3_token_response : ZoomTokenResponse :=
  { access_token := "new-access", api_url := "https://api.zoom.us",
    expires_in := 3600, refresh_token := "new-refresh", scope := "meeting:write",
    token_type := "bearer" }

/-- Serde decoders over a trivial `serde_json::Value` model that reject
every payload. -/
def c4_decoders : SerdeDecoders Unit :=
  { decode_meeting_started := fun _ => none,
    decode_meeting_ended := fun _ => none,
    decode_participant_joined := fun _ => none,
    decode_participant_left := fun _ => none }

/-- An open meeting (null `end_time`), started at the epoch, no override. -/
def c5_open_meeting : DBMeeting :=
  { meeting_id := 1, user_id := 10, zoom_id := "555", zoom_uuid := "u5",
    start_time := 0, end_time := none, max_meeting_length_minutes := none,
    created_at := 0, updated_at := 0 }

/-- A meeting whose `end_time` is already set. -/
def c5_ended_meeting : DBMeeting :=
  { meeting_id := 2, user_id := 10, zoom_id := "556", zoom_uuid := "u6",
    start_time := 0, end_time := some (ChronoDuration.minutes 10),
    max_meeting_length_minutes := none, created_at := 0, updated_at := 0 }

/-- Owner of the two meetings above, token still fresh, no default length. -/
def c5_owner : DBUser :=
  { user_id := 10, zoom_id := "z10", display_name := "Owner",
    access_token := "tok5", refresh_token := "r5",
    expires_at := ChronoDuration.minutes 1000,
    default_meeting_length_minutes := none, created_at := 0, updated_at := 0 }

/-- Meeting with a 20-minute override. -/
def c6_meeting_override : DBMeeting :=
  { meeting_id := 1, user_id := 1, zoom_id := "1", zoom_uuid := "u",
    start_time := 0, end_time := none, max_meeting_length_minutes := some 20,
    created_at := 0, updated_at := 0 }

/-- Meeting without an override. -/
def c6_meeting_plain : DBMeeting :=
  { meeting_id := 2, user_id := 1, zoom_id := "2", zoom_uuid := "v",
    start_time := 0, end_time := none, max_meeting_length_minutes := none,
    created_at := 0, updated_at := 0 }

/-- User with a 60-minute default length. -/
def c6_user_default : DBUser :=
  { user_id := 1, zoom_id := "z1", display_name := "U", access_token := "a",
    refresh_token := "r", expires_at := 0,
    default_meeting_length_minutes := some 60, created_at := 0, updated_at := 0 }

/-- User without a default length. -/
def c6_user_plain : DBUser :=
  { user_id := 2, zoom_id := "z2", display_name := "V", access_token := "a",
    refresh_token := "r", expires_at := 0,
    default_meeting_length_minutes := none, created_at := 0, updated_at := 0 }

/-- Open meeting started at the epoch, no override. -/
def c7_meeting : DBMeeting :=
  { meeting_id := 1, user_id := 1, zoom_id := "1", zoom_uuid := "u",
    start_time := 0, end_time := none, max_meeting_length_minutes := none,
    created_at := 0, updated_at := 0 }

/-- User without a default length. -/
def c7_user : DBUser :=
  { user_id := 1, zoom_id := "z", display_name := "d", access_token := "a",
    refresh_token := "r", expires_at := 0,
    default_meeting_length_minutes := none, created_at := 0, updated_at := 0 }

/-- User whose token expires exactly 60 seconds after the epoch. -/
def c8_user : DBUser :=
  { user_id := 8, zoom_id := "z8", display_name := "B", access_token := "cached",
    refresh_token := "r8", expires_at := ChronoDuration.seconds 60,
    default_meeting_length_minutes := none, created_at := 0, updated_at := 0 }

/-- User whose token expires five minutes after the epoch. -/
def c8_five_min_user : DBUser :=
  { user_id := 9, zoom_id := "z9", display_name := "F", access_token := "cached5",
    refresh_token := "r9", expires_at := ChronoDuration.seconds 300,
    default_meeting_length_minutes := none, created_at := 0, updated_at := 0 }

/-- User whose token expires thirty seconds after the epoch. -/
def c8_thirty_sec_user : DBUser :=
  { user_id := 11, zoom_id := "z11", display_name := "T", access_token := "cached30",
    refresh_token := "r11", expires_at := ChronoDuration.seconds 30,
    default_meeting_length_minutes := none, created_at := 0, updated_at := 0 }

/-- A listed provider meeting of type 4, a Personal Meeting Room. -/
def c9_pmr_meeting : ListedMeeting :=
  { agenda := none, created_at := "2024-01-01T00:00:00Z", duration := none,
    host_id := "host", id := 9, start_time := none, timezone := none,
    type := 4, uuid := "pmr-uuid" }

/-- Serde decoders for the missing-header witness. -/
def c10_decoders : SerdeDecoders Unit :=
  { decode_meeting_started := fun _ => none,
    decode_meeting_ended := fun _ => none,
    decode_participant_joined := fun _ => none,
    decode_participant_left := fun _ => none }

end JustAdios

namespace JustAdios

theorem i64_as_i32_eq_self (x : Int) (h1 : -2147483648 ≤ x)
    (h2 : x < 2147483648) : i64_as_i32 x = x := by
  unfold i64_as_i32
  omega

/-- C1 counterexample: a `meeting.ended` webhook whose payload carries a null
`end_time` resets an already-closed meeting's `end_time` to null — the
monotonic-close invariant fails on the code. -/
theorem meeting_ended_webhook_clears_end_time :
    c1_meeting.end_time = some (ChronoDuration.minutes 100) ∧
    MeetingEndedPayload.process c1_payload [c1_meeting] =
      .ok [{ c1_meeting with end_time := none }] := by
  exact ⟨rfl, rfl⟩

/-- C1 amended: processing a `meeting.ended` webhook sets the `end_time` of
every row matching the provider instance id unconditionally to the payload's
(nullable) `end_time` — including back to null or to an earlier instant; the
code enforces no monotonicity. -/
theorem meeting_ended_webhook_overwrites_end_time
    (p : MeetingEndedPayload) (meetings : List DBMeeting) (m : DBMeeting)
    (hm : m ∈ meetings) (hu : m.zoom_uuid = p.object.uuid) :
    ∃ meetings', MeetingEndedPayload.process p meetings = .ok meetings' ∧
      ∀ m' ∈ meetings', m'.zoom_uuid = p.object.uuid →
        m'.end_time = p.object.end_time := by
  have hany : meetings.any (fun x => x.zoom_uuid == p.object.uuid) = true :=
    List.any_eq_true.mpr ⟨m, hm, by simp [hu]⟩
  refine ⟨meetings.map (fun x =>
    if x.zoom_uuid == p.object.uuid then { x with end_time := p.object.end_time } else x),
    ?_, ?_⟩
  · unfold MeetingEndedPayload.process
    rw [if_pos hany]
  · intro m' hm' hu'
    rcases List.mem_map.mp hm' with ⟨x, hx, hmap⟩
    by_cases hxu : x.zoom_uuid == p.object.uuid
    · rw [← hmap]
      simp [hxu]
    · rw [if_neg hxu] at hmap
      subst hmap
      exact absurd (by simp [hu']) hxu

/-- C1 amended, witnessed at the concrete closed meeting and null-`end_time`
payload above. -/
theorem meeting_ended_webhook_overwrites_end_time_witness :
    ∃ meetings', MeetingEndedPayload.process c1_payload [c1_meeting] = .ok meetings' ∧
      ∀ m' ∈ meetings', m'.zoom_uuid = c1_payload.object.uuid →
        m'.end_time = c1_payload.object.end_time :=
  meeting_ended_webhook_overwrites_end_time c1_payload [c1_meeting] c1_meeting
    (by simp) rfl

/-- C2 counterexample: two discovery inserts carrying the same provider
instance id but different provider meeting ids produce two rows with that
instance id — the conflict rule is keyed on `zoom_id`, not the instance
id, so uniqueness per instance id fails. -/
theorem discovery_conflict_not_keyed_on_instance_id :
    c2_after_two_inserts.length = 2 ∧
    c2_after_two_inserts.map DBMeeting.zoom_uuid = ["shared-uuid", "shared-uuid"] := by
  exact ⟨rfl, rfl⟩

/-- C2 amended: the discovery insert ignores conflicts on the provider
meeting id (`zoom_id`): re-inserting the same discovered meeting is a no-op
that preserves the existing rows unchanged, whatever user, clock reading or
generated key the second insert carries. -/
theorem discovery_insert_same_meeting_twice_noop
    (meetings : List DBMeeting) (uid1 uid2 : Nat) (lm : ListedMeeting)
    (now1 now2 : Nanos) (id1 id2 : Nat) :
    insert_discovered_meeting
      (insert_discovered_meeting meetings uid1 lm now1 id1) uid2 lm now2 id2 =
      insert_discovered_meeting meetings uid1 lm now1 id1 := by
  unfold insert_discovered_meeting
  by_cases h : meetings.any (fun m => m.zoom_id == toString lm.id)
  · simp [h]
  · simp [h]

/-- C3 counterexample: an expired user refreshes successfully and the
provider rotates the refresh token, but the persisted row still holds the
old refresh token — the rotated refresh token is not persisted. -/
theorem refresh_does_not_persist_rotated_refresh_token :
    DBUser.access_token_op c3_user (ChronoDuration.minutes 10) (.ok c3_token_response) =
      .ok ("new-access",
        some { c3_user with
               access_token := "new-access",
               expires_at := ChronoDuration.minutes 10 + ChronoDuration.seconds 3600 }) ∧
    ({ c3_user with
       access_token := "new-access",
       expires_at := ChronoDuration.minutes 10 + ChronoDuration.seconds 3600 } :
         DBUser).refresh_token = "old-refresh" ∧
    c3_token_response.refresh_token = "new-refresh" := by
  exact ⟨rfl, rfl, rfl⟩

/-- C3 amended: for an expired token, a successful refresh persists the new
access token and the new expiry and returns the new access token — but the
stored row keeps the previous refresh token (the rotated one is dropped). -/
theorem access_token_refresh_persists_access_and_expiry
    (u : DBUser) (now : Nanos) (tr : ZoomTokenResponse)
    (h : u.is_access_token_expired now = true) :
    ∃ u', DBUser.access_token_op u now (.ok tr) = .ok (tr.access_token, some u') ∧
      u'.access_token = tr.access_token ∧
      u'.expires_at = now + ChronoDuration.seconds tr.expires_in ∧
      u'.refresh_token = u.refresh_token := by
  refine ⟨{ u with
            access_token := tr.access_token,
            expires_at := now + ChronoDuration.seconds tr.expires_in },
    ?_, rfl, rfl, rfl⟩
  simp [DBUser.access_token_op, h]

/-- C3 amended, witnessed at the concrete expired user and rotating
response above. -/
theorem access_token_refresh_persists_access_and_expiry_witness :
    ∃ u', DBUser.access_token_op c3_user (ChronoDuration.minutes 10)
        (.ok c3_token_response) = .ok (c3_token_response.access_token, some u') ∧
      u'.access_token = c3_token_response.access_token ∧
      u'.expires_at = ChronoDuration.minutes 10 +
        ChronoDuration.seconds c3_token_response.expires_in ∧
      u'.refresh_token = c3_user.refresh_token :=
  access_token_refresh_persists_access_and_expiry c3_user
    (ChronoDuration.minutes 10) c3_token_response (by decide)

theorem try_from_unknown_event {J : Type} (d : SerdeDecoders J)
    (b : ZoomWebhookBody J)
    (h1 : b.event ≠ "meeting.started") (h2 : b.event ≠ "meeting.ended")
    (h3 : b.event ≠ "meeting.participant_joined")
    (h4 : b.event ≠ "meeting.participant_left") :
    ZoomWebhookEvent.try_from d b = .error "Unknown event type" := by
  unfold ZoomWebhookEvent.try_from
  repeat' split
  all_goals simp_all

theorem try_from_started_decode_failure {J : Type} (d : SerdeDecoders J)
    (b : ZoomWebhookBody J) (he : b.event = "meeting.started")
    (hd : d.decode_meeting_started b.payload = none) :
    ZoomWebhookEvent.try_from d b = .error "serde decode error" := by
  unfold ZoomWebhookEvent.try_from
  rw [he]
  simp [hd]

/-- C4 counterexample: a request with a valid signature whose body fails to
decode as the `ZoomWebhookBody` envelope makes the handler panic (the code
calls `.unwrap()` on the serde result) instead of answering 400. -/
theorem webhook_envelope_decode_failure_panics :
    zoom_webhook c4_decoders (fun _ _ => "deadbeef") (fun _ => none) "secret"
      { x_zm_request_timestamp := some "123", x_zm_signature := some "v0=deadbeef" }
      "not json" = .panicked "called Result.unwrap on an Err value" := by
  rfl

/-- C4 amended: the handler verifies the signature before any body parsing
and answers 400 on signature mismatch, on an unrecognized event name, and on
a payload that fails to decode for a recognized event — but a body whose
envelope fails to decode causes a panic (unwrap), not a 400 response. -/
theorem webhook_error_paths {J : Type} (d : SerdeDecoders J)
    (hmac : String → String → String) (pe : String → Option (ZoomWebhookBody J))
    (secret ts sig body : String) :
    (sig ≠ "v0=" ++ hmac secret ("v0:" ++ ts ++ ":" ++ body) →
      zoom_webhook d hmac pe secret
        { x_zm_request_timestamp := some ts, x_zm_signature := some sig } body =
        .value (.error { status := 400, body := "Invalid zoom webhook signature" })) ∧
    (sig = "v0=" ++ hmac secret ("v0:" ++ ts ++ ":" ++ body) → pe body = none →
      zoom_webhook d hmac pe secret
        { x_zm_request_timestamp := some ts, x_zm_signature := some sig } body =
        .panicked "called Result.unwrap on an Err value") ∧
    (sig = "v0=" ++ hmac secret ("v0:" ++ ts ++ ":" ++ body) →
      ∀ b, pe body = some b →
      b.event ≠ "meeting.started" → b.event ≠ "meeting.ended" →
      b.event ≠ "meeting.participant_joined" → b.event ≠ "meeting.participant_left" →
      zoom_webhook d hmac pe secret
        { x_zm_request_timestamp := some ts, x_zm_signature := some sig } body =
        .value (.error
          { status := 400, body := "Invalid zoom webhook body: Unknown event type" })) ∧
    (sig = "v0=" ++ hmac secret ("v0:" ++ ts ++ ":" ++ body) →
      ∀ b, pe body = some b →
      b.event = "meeting.started" → d.decode_meeting_started b.payload = none →
      zoom_webhook d hmac pe secret
        { x_zm_request_timestamp := some ts, x_zm_signature := some sig } body =
        .value (.error
          { status := 400, body := "Invalid zoom webhook body: serde decode error" })) := by
  refine ⟨?_, ?_, ?_, ?_⟩
  · intro h
    simp [zoom_webhook, verify_zoom_signature, h]
  · intro h hpe
    simp [zoom_webhook, verify_zoom_signature, h, hpe]
  · intro h b hpe h1 h2 h3 h4
    simp [zoom_webhook, verify_zoom_signature, h, hpe,
      try_from_unknown_event d b h1 h2 h3 h4]
  · intro h b hpe he hd
    simp [zoom_webhook, verify_zoom_signature, h, hpe,
      try_from_started_decode_failure d b he hd]

/-- C4 amended, witnessed: a correctly signed request whose envelope decodes
to an unknown event name gets the 400 "Unknown event type" response. -/
theorem webhook_error_paths_witness :
    zoom_webhook c4_decoders (fun _ _ => "ff") (fun _ => some ⟨"bogus.event", ()⟩)
      "secret" { x_zm_request_timestamp := some "123", x_zm_signature := some "v0=ff" }
      "body" =
      .value (.error
        { status := 400, body := "Invalid zoom webhook body: Unknown event type" }) :=
  (webhook_error_paths c4_decoders (fun _ _ => "ff") (fun _ => some ⟨"bogus.event", ()⟩)
      "secret" "123" "v0=ff" "body").2.2.1 (by decide) ⟨"bogus.event", ()⟩ rfl
    (by decide) (by decide) (by decide) (by decide)

/-- C10: a webhook request missing the `x-zm-request-timestamp` header or
the `x-zm-signature` header panics inside `verify_zoom_signature` (unwrap on
a missing header) — it is not turned into a 400 response. -/
theorem webhook_missing_header_panics {J : Type} (d : SerdeDecoders J)
    (hmac : String → String → String) (pe : String → Option (ZoomWebhookBody J))
    (secret : String) (headers : HeaderMap) (body : String)
    (h : headers.x_zm_request_timestamp = none ∨ headers.x_zm_signature = none) :
    zoom_webhook d hmac pe secret headers body =
      .panicked "called Option.unwrap on a None value" := by
  rcases headers with ⟨hts, hsig⟩
  cases hts <;> cases hsig <;>
    simp_all [zoom_webhook, verify_zoom_signature]

/-- C5: the `EndMeeting` job returns success without the provider terminate
call when the meeting's end time is already set, issues the terminate call
when the meeting is open and strictly over its `max_duration` (once the
token step yields a token), and never writes the meetings table. -/
theorem end_meeting_job_behaviour (meetings : List DBMeeting)
    (users : List DBUser) (meeting_id : Nat) (now : Nanos)
    (refresh_result : Except String ZoomTokenResponse)
    (adios_result : Except String Unit) :
    ((EndMeeting.run meetings users meeting_id now refresh_result
        adios_result).2.2 = meetings) ∧
    (∀ m, meetings.find? (fun x => x.meeting_id == meeting_id) = some m →
      m.is_ended = true →
      ∀ u, users.find? (fun x => x.user_id == m.user_id) = some u →
      EndMeeting.run meetings users meeting_id now refresh_result adios_result =
        (.ok (), false, meetings)) ∧
    (∀ m u tok w, meetings.find? (fun x => x.meeting_id == meeting_id) = some m →
      users.find? (fun x => x.user_id == m.user_id) = some u →
      m.is_ended = false →
      m.duration now > m.max_duration u →
      u.access_token_op now refresh_result = .ok (tok, w) →
      (EndMeeting.run meetings users meeting_id now refresh_result
        adios_result).2.1 = true) := by
  refine ⟨?_, ?_, ?_⟩
  · unfold EndMeeting.run
    repeat' split
    all_goals rfl
  · intro m hfind hend u hufind
    simp [EndMeeting.run, hfind, hufind, hend]
  · intro m u tok w hfind hufind hend hdur hop
    simp [EndMeeting.run, hfind, hufind, hend, hdur, hop]

/-- C5, witnessed: 50-minute-old open meeting with the 40-minute default is
terminated (even with the refresh grant unavailable, since the cached token
is fresh); already-ended meeting returns success without the call. -/
theorem end_meeting_job_behaviour_witness :
    (EndMeeting.run [c5_open_meeting] [c5_owner] 1 (ChronoDuration.minutes 50)
      (.error "network down") (.ok ())).2.1 = true ∧
    EndMeeting.run [c5_ended_meeting] [c5_owner] 2 0
      (.error "network down") (.ok ()) = (.ok (), false, [c5_ended_meeting]) :=
  ⟨(end_meeting_job_behaviour [c5_open_meeting] [c5_owner] 1
      (ChronoDuration.minutes 50) (.error "network down") (.ok ())).2.2
      c5_open_meeting c5_owner "tok5" none rfl rfl rfl (by decide) rfl,
   (end_meeting_job_behaviour [c5_ended_meeting] [c5_owner] 2 0
      (.error "network down") (.ok ())).2.1
      c5_ended_meeting rfl rfl c5_owner rfl⟩

/-- C6: `max_duration` follows the strict three-level precedence —
meeting override, else user default, else the 40-minute system default. -/
theorem max_duration_precedence (m : DBMeeting) (u : DBUser) :
    (∀ o, m.max_meeting_length_minutes = some o →
      m.max_duration u = ChronoDuration.minutes o) ∧
    (m.max_meeting_length_minutes = none →
      ∀ d, u.default_meeting_length_minutes = some d →
      m.max_duration u = ChronoDuration.minutes d) ∧
    (m.max_meeting_length_minutes = none →
      u.default_meeting_length_minutes = none →
      m.max_duration u = ChronoDuration.minutes 40) := by
  refine ⟨?_, ?_, ?_⟩
  · intro o ho
    simp [DBMeeting.max_duration, ho]
  · intro hno d hd
    simp [DBMeeting.max_duration, hno, hd]
  · intro hno hnd
    simp [DBMeeting.max_duration, hno, hnd, DEFAULT_MAX_MEETING_LENGTH_MINUTES]

/-- C6, witnessed at the spec's three instances: override 20 with user
default 60 gives 20; no override with user default 60 gives 60; neither
gives 40. -/
theorem max_duration_precedence_witness :
    c6_meeting_override.max_duration c6_user_default = ChronoDuration.minutes 20 ∧
    c6_meeting_plain.max_duration c6_user_default = ChronoDuration.minutes 60 ∧
    c6_meeting_plain.max_duration c6_user_plain = ChronoDuration.minutes 40 :=
  ⟨(max_duration_precedence c6_meeting_override c6_user_default).1 20 rfl,
   (max_duration_precedence c6_meeting_plain c6_user_default).2.1 rfl 60 rfl,
   (max_duration_precedence c6_meeting_plain c6_user_plain).2.2 rfl rfl⟩

/-- C7 counterexample: an open meeting 40.5 minutes old with the 40-minute
default: `minutes_remaining` truncates toward zero and answers 0, while the
floor of (max_duration − duration) in whole minutes is −1. -/
theorem minutes_remaining_not_floor :
    c7_meeting.minutes_remaining c7_user (ChronoDuration.seconds 2430) = 0 ∧
    spec_floor_minutes (c7_meeting.max_duration c7_user -
      c7_meeting.duration (ChronoDuration.seconds 2430)) = -1 := by
  exact ⟨by decide, by decide⟩

/-- C7 amended: `minutes_remaining` is the truncation toward zero — not the
floor — of (max_duration − duration) in whole minutes (exactly so whenever
the minute count fits an i32); it may be negative, and the meeting started
38 minutes ago with no override and no user default yields 2. -/
theorem minutes_remaining_truncates :
    (∀ (m : DBMeeting) (u : DBUser) (now : Nanos),
      -2147483648 ≤ ChronoDuration.num_minutes (m.max_duration u - m.duration now) →
      ChronoDuration.num_minutes (m.max_duration u - m.duration now) < 2147483648 →
      m.minutes_remaining u now =
        Int.tdiv (Int.tdiv (m.max_duration u - m.duration now) 1000000000) 60) ∧
    c7_meeting.minutes_remaining c7_user (ChronoDuration.minutes 38) = 2 ∧
    c7_meeting.minutes_remaining c7_user (ChronoDuration.minutes 100) = -60 := by
  refine ⟨?_, by decide, by decide⟩
  intro m u now h1 h2
  unfold DBMeeting.minutes_remaining
  rw [i64_as_i32_eq_self _ h1 h2]
  unfold ChronoDuration.num_minutes ChronoDuration.num_seconds
  rfl

/-- C7 amended, witnessed at the meeting started 38 minutes before `now`. -/
theorem minutes_remaining_truncates_witness :
    c7_meeting.minutes_remaining c7_user (ChronoDuration.minutes 38) =
      Int.tdiv (Int.tdiv (c7_meeting.max_duration c7_user -
        c7_meeting.duration (ChronoDuration.minutes 38)) 1000000000) 60 :=
  minutes_remaining_truncates.1 c7_meeting c7_user (ChronoDuration.minutes 38)
    (by decide) (by decide)

/-- C8 counterexample: with `expires_at` exactly `now + 60 s` the code still
returns the cached token without any refresh or store write, although the
claimed condition `now + 60 s < expires_at` fails — the cache condition is
`≤`, not `<`. -/
theorem token_cache_boundary_counterexample :
    DBUser.access_token_op c8_user 0 (.error "refresh not attempted") =
      .ok ("cached", none) ∧
    ¬ ((0 : Int) + ChronoDuration.seconds 60 < c8_user.expires_at) := by
  exact ⟨rfl, by decide⟩

/-- C8 amended: the access-token operation returns the cached token with no
store write exactly when `now + 60 s ≤ expires_at`; a token expiring in five
minutes is served from cache while one expiring in thirty seconds goes to
the refresh call (whose failure propagates). -/
theorem token_cache_iff :
    (∀ (u : DBUser) (now : Nanos) (r : Except String ZoomTokenResponse),
      DBUser.access_token_op u now r = .ok (u.access_token, none) ↔
        now + ChronoDuration.seconds 60 ≤ u.expires_at) ∧
    DBUser.access_token_op c8_five_min_user 0 (.error "refresh failed") =
      .ok ("cached5", none) ∧
    DBUser.access_token_op c8_thirty_sec_user 0 (.error "refresh failed") =
      .error "refresh failed" := by
  refine ⟨?_, rfl, rfl⟩
  intro u now r
  by_cases h : u.is_access_token_expired now = true
  · have hlt : u.expires_at < now + ChronoDuration.seconds 60 := by
      simpa [DBUser.is_access_token_expired] using h
    cases r with
    | error e =>
      simp [DBUser.access_token_op, h]
      exact hlt
    | ok tr =>
      simp [DBUser.access_token_op, h]
      exact hlt
  · have hb : u.is_access_token_expired now = false := by
      simpa using h
    have hge : now + ChronoDuration.seconds 60 ≤ u.expires_at := by
      simpa [DBUser.is_access_token_expired, Int.not_lt] using hb
    simp [DBUser.access_token_op, hb]
    exact hge

/-- C9: `live_duration` on a Personal Meeting Room listing (type = 4)
always returns the explicit duration-unknown error, never a number. -/
theorem live_duration_pmr_fails (parse_created_at : String → Except String Nanos)
    (m : ListedMeeting) (now : Nanos) (h : m.type = 4) :
    ListedMeeting.live_duration parse_created_at m now =
      .error "Could not determine the live duration of a Personal Meeting Room Meeting because the API created_at is the first time the meeting was ever used and no start time is presented" := by
  unfold ListedMeeting.live_duration
  rw [if_pos h]

/-- C9, witnessed at a concrete type-4 listing. -/
theorem live_duration_pmr_fails_witness :
    ListedMeeting.live_duration (fun _ => .error "unparsed") c9_pmr_meeting 0 =
      .error "Could not determine the live duration of a Personal Meeting Room Meeting because the API created_at is the first time the meeting was ever used and no start time is presented" :=
  live_duration_pmr_fails (fun _ => .error "unparsed") c9_pmr_meeting 0 rfl

/-- C10, witnessed at a request with no timestamp header. -/
theorem webhook_missing_header_panics_witness :
    zoom_webhook c10_decoders (fun _ _ => "ff") (fun _ => none) "secret"
      { x_zm_request_timestamp := none, x_zm_signature := some "v0=ff" } "body" =
      .panicked "called Option.unwrap on a None value" :=
  webhook_missing_header_panics c10_decoders (fun _ _ => "ff") (fun _ => none)
    "secret" { x_zm_request_timestamp := none, x_zm_signature := some "v0=ff" }
    "body" (Or.inl rfl)

end JustAdios
